import Mathlib

/-!
Verification of the risk-analysis-and-scoring repository.

Shallow embedding of the repository's core logic over exact rationals:

* `pyRound5` models Python's `round(x, 5)` (round half to even) on exact values;
* `FinalLayer3` embeds `finallayer3.py` (the canonical banded projection engine
  and the raising EPSS fetcher);
* `FastApi1` embeds `fastapi(1).py` (its own banded projection, swallowing
  fetcher, pattern/score-validating `CVEInput`, and the AI fallback bundle with
  empty lists);
* `FastApi2` embeds `fastapi(2).py` (unclamped `epss_predict`, swallowing
  `epss_live`, severity/score-validating `CVEInput`, the keyword fallback bundle
  of `ai_analyze`, and the `analyze` endpoint assembly);
* `ApiPy` embeds the startup credential check of `api.py`.

External HTTP calls are modelled by explicit outcome values (`FetchOutcome` for
the EPSS score oracle, `Except Unit _` for the text-completion collaborator)
passed to the functions that consume them; image rendering is an external
collaborator and is not modelled.
-/

/-- Round half to even on a rational, returning an integer.  Models the tie
behaviour of Python's `round` applied to an exactly representable value. -/
def rhe (x : ℚ) : ℤ :=
  if x - ⌊x⌋ < 1/2 then ⌊x⌋
  else if 1/2 < x - ⌊x⌋ then ⌊x⌋ + 1
  else if ⌊x⌋ % 2 = 0 then ⌊x⌋ else ⌊x⌋ + 1

/-- Models Python's `round(x, 5)`: scale by `10^5`, round half to even,
scale back. -/
def pyRound5 (x : ℚ) : ℚ := (rhe (x * 100000) : ℚ) / 100000

/-- Boolean test that the first character list is a prefix of the second. -/
def charsPre : List Char → List Char → Bool
  | [], _ => true
  | _ :: _, [] => false
  | a :: as, b :: bs => a == b && charsPre as bs

/-- Boolean test that the first character list occurs contiguously inside the
second; models Python's `needle in haystack` on strings. -/
def charsInfix (p : List Char) : List Char → Bool
  | [] => p.isEmpty
  | b :: bs => charsPre p (b :: bs) || charsInfix p bs

/-- Models Python's `str.upper` (ASCII case mapping). -/
def pyUpper (s : String) : String := String.mk (s.data.map Char.toUpper)

/-- Models Python's `kw in s.lower()`. -/
def strContainsLower (s kw : String) : Bool :=
  charsInfix kw.data (s.data.map Char.toLower)

/-- Models the pydantic pattern `^CVE-\d\x7b4\x7d-\d\x7b4,10\x7d$`: the literal
`CVE-`, exactly four digits, `-`, then four to ten digits. -/
def validCVEId (s : String) : Bool :=
  match s.data with
  | 'C' :: 'V' :: 'E' :: '-' :: rest =>
    decide ((rest.take 4).length = 4) && (rest.take 4).all Char.isDigit &&
    (match rest.drop 4 with
     | '-' :: num =>
       decide (4 ≤ num.length) && decide (num.length ≤ 10) && num.all Char.isDigit
     | _ => false)
  | _ => false

/-- The observable outcome of one GET request to the EPSS score oracle.
`payload data` is a parsed 2xx response whose `data` list holds, per element,
the `epss` field as a rational when Python's `float()` accepts it and `none`
when it is malformed. -/
inductive FetchOutcome where
  | netError
  | httpError
  | badJson
  | payload (data : List (Option ℚ))

/-- The oracle outcomes on which the spec demands the adapters return `0.0`:
everything except a payload whose first element carries a readable score. -/
def FetchOutcome.isFailureCase : FetchOutcome → Bool
  | .payload (some _ :: _) => false
  | _ => true

namespace FinalLayer3

/-- `predict_epss_30d` from `finallayer3.py`: the canonical banded growth
table (1.30 / 1.15 / 1.05 / 0.97), clamped to 1.0 and rounded to 5 places. -/
def predict_epss_30d (current : ℚ) : ℚ :=
  pyRound5 (min 1 (current *
    (if current < 0.005 then 1.30
     else if current < 0.02 then 1.15
     else if current < 0.10 then 1.05
     else 0.97)))

/-- `fetch_epss` from `finallayer3.py`.  There is no `try/except`: a raised
`requests` error, `raise_for_status`, JSON decoding error or `float()` failure
propagates, and an empty `data` list raises `RuntimeError`. -/
def fetch_epss (r : FetchOutcome) : Except String ℚ :=
  match r with
  | .netError => .error "requests.exceptions.RequestException"
  | .httpError => .error "requests.exceptions.HTTPError"
  | .badJson => .error "requests.exceptions.JSONDecodeError"
  | .payload [] => .error "EPSS data not found for this CVE"
  | .payload (none :: _) => .error "ValueError"
  | .payload (some e :: _) => .ok e

end FinalLayer3

namespace FastApi1

/-- `predict_epss_30d` from `fastapi(1).py`: a different banded table
(1.50 / 1.30 / 1.15 / 1.08 / 1.03), clamped to 1.0 and rounded to 5 places. -/
def predict_epss_30d (cur : ℚ) : ℚ :=
  pyRound5 (min 1 (cur *
    (if cur < 0.01 then 1.50
     else if cur < 0.05 then 1.30
     else if cur < 0.20 then 1.15
     else if cur < 0.50 then 1.08
     else 1.03)))

/-- `fetch_epss` from `fastapi(1).py`: the whole body is wrapped in
`try/except Exception: return 0.0`, and an empty `data` list returns `0.0`
directly. -/
def fetch_epss (r : FetchOutcome) : ℚ :=
  match r with
  | .netError => 0
  | .httpError => 0
  | .badJson => 0
  | .payload [] => 0
  | .payload (none :: _) => 0
  | .payload (some e :: _) => e

/-- `CVEInput` from `fastapi(1).py`: pydantic validates the identifier pattern
and the score range; `severity` is a bare `str` with no constraint. -/
structure CVEInput where
  cve_id : String
  cvss_vector : String
  severity : String
  cvss_score : ℚ
  affected_assets : List String

/-- Whether pydantic accepts the record in `fastapi(1).py`. -/
def CVEInput.valid (c : CVEInput) : Bool :=
  validCVEId c.cve_id && decide (0 ≤ c.cvss_score) && decide (c.cvss_score ≤ 10)

/-- The four-field JSON bundle produced by `ai_generate_analysis`. -/
structure AIBundle where
  simple_summary : String
  simple_description : String
  affected_products : List String
  fixes : List String

/-- The constant dictionary returned by the `except` branch of
`ai_generate_analysis` in `fastapi(1).py`. -/
def v1_fallback : AIBundle :=
  { simple_summary := "AI analysis unavailable"
    simple_description := "Failed to generate AI analysis"
    affected_products := []
    fixes := [] }

/-- `ai_generate_analysis` from `fastapi(1).py`.  The argument is the outcome
of the completion call: `.ok (some d)` when the call succeeded and the regex
found a JSON object parsing to `d`; `.ok none` when the call succeeded but no
brace-delimited object was found (the code returns the empty dictionary);
`.error ()` when the call or parsing raised.  The input record is unused by
the fallback, so it is not a parameter. -/
def ai_generate_analysis (outcome : Except Unit (Option AIBundle)) : Option AIBundle :=
  match outcome with
  | .ok parsed => parsed
  | .error _ => some v1_fallback

end FastApi1

namespace FastApi2

/-- `epss_predict` from `fastapi(2).py`: `round(current * 1.15, 5)`,
with no clamp to 1.0. -/
def epss_predict (current : ℚ) : ℚ := pyRound5 (current * 1.15)

/-- `epss_live` from `fastapi(2).py`: body wrapped in
`try/except Exception: return 0.0`, empty `data` list returns `0.0`. -/
def epss_live (r : FetchOutcome) : ℚ :=
  match r with
  | .netError => 0
  | .httpError => 0
  | .badJson => 0
  | .payload [] => 0
  | .payload (none :: _) => 0
  | .payload (some e :: _) => e

/-- `CVEInput` from `fastapi(2).py`: `cve_id` is a bare `str` with no pattern,
the score is range-checked, and a `field_validator` uppercases the severity and
checks it against the five-value set. -/
structure CVEInput where
  cve_id : String
  cvss_vector : Option String
  severity : String
  cvss_score : ℚ
  summary : String
  description : String

/-- The severity set accepted by the `validate_severity` validator, applied
after uppercasing. -/
def severityValid (v : String) : Bool :=
  v == "CRITICAL" || v == "HIGH" || v == "MEDIUM" || v == "LOW" || v == "NONE"

/-- How a request to the `/analyze` endpoint can fail: pydantic rejection of
the body; an uncaught `KeyError` while the handler indexes the AI dictionary;
or an uncaught pydantic `ValidationError` raised while constructing
`CVEAnalysisResponse` from wrong-typed AI values. -/
inductive AnalyzeError where
  | validation
  | fieldMissing (field : String)
  | responseValidation

/-- Pydantic validation of `CVEInput` in `fastapi(2).py`: score in `[0, 10]`
and severity (uppercased, and stored uppercased) in the allowed set. -/
def validateCVEInput (c : CVEInput) : Except AnalyzeError CVEInput :=
  if severityValid (pyUpper c.severity) && decide (0 ≤ c.cvss_score) &&
      decide (c.cvss_score ≤ 10)
  then .ok { c with severity := pyUpper c.severity }
  else .error .validation

/-- A JSON value found under one of the five keys of the parsed completion
output: a string, a list of strings, or anything else `json.loads` can
produce there (number, bool, null, object, list with non-string elements) —
pydantic v2 accepts only the first for `str` fields and only the second for
`List[str]` fields, with no coercion from the rest. -/
inductive JsonVal where
  | str (s : String)
  | list (l : List String)
  | other

/-- The value when pydantic's `str` annotation accepts it. -/
def JsonVal.asStr : JsonVal → Option String
  | .str s => some s
  | .list _ => none
  | .other => none

/-- The value when pydantic's `List[str]` annotation accepts it. -/
def JsonVal.asStrList : JsonVal → Option (List String)
  | .str _ => none
  | .list l => some l
  | .other => none

/-- The dictionary returned by `ai_analyze`, modelling the JSON object
produced by `json.loads` on the completion output: any of the five keys may
be absent, and a present key may hold a value of the wrong JSON type. -/
structure AIDict where
  simple_summary : Option JsonVal
  simple_description : Option JsonVal
  affected_products : Option JsonVal
  affected_assets : Option JsonVal
  fixes : Option JsonVal

/-- All five keys present and carrying values of the types
`CVEAnalysisResponse` demands (strings for the summaries, string lists for
products, assets and fixes). -/
def AIDict.wellFormed (d : AIDict) : Bool :=
  (d.simple_summary.bind JsonVal.asStr).isSome &&
  (d.simple_description.bind JsonVal.asStr).isSome &&
  (d.affected_products.bind JsonVal.asStrList).isSome &&
  (d.affected_assets.bind JsonVal.asStrList).isSome &&
  (d.fixes.bind JsonVal.asStrList).isSome

/-- `fallback_assets` from `ai_analyze` in `fastapi(2).py`. -/
def fallback_assets : List String :=
  ["Servers", "Production systems", "Internet-facing hosts"]

/-- `fallback_fixes` from `ai_analyze` in `fastapi(2).py`. -/
def fallback_fixes : List String :=
  ["Apply vendor security patches", "Upgrade to the latest stable version",
   "Restrict network access", "Monitor logs for exploitation attempts"]

/-- The keyword inspection building `fallback_products` in `ai_analyze`:
`"ssh"` in the lowercased summary appends `"OpenSSH"`, `"linux"` in the
lowercased description appends `"Linux systems"`. -/
def keyword_products (cve : CVEInput) : List String :=
  (if strContainsLower cve.summary "ssh" then ["OpenSSH"] else [])
    ++ (if strContainsLower cve.description "linux" then ["Linux systems"] else [])

/-- `fallback_products` from `ai_analyze`: the keyword products, or the generic
placeholder when no keyword matched. -/
def fallback_products (cve : CVEInput) : List String :=
  if keyword_products cve = [] then ["Affected software components"]
  else keyword_products cve

/-- The full fallback dictionary `ai_analyze` returns when no key is
configured or the completion call fails: summary and description echoed
verbatim, keyword products, fixed assets and fixes. -/
def fallbackBundle (cve : CVEInput) : AIDict :=
  { simple_summary := some (.str cve.summary)
    simple_description := some (.str cve.description)
    affected_products := some (.list (fallback_products cve))
    affected_assets := some (.list fallback_assets)
    fixes := some (.list fallback_fixes) }

/-- `ai_analyze` from `fastapi(2).py`.  `key` is `OPENROUTER_API_KEY` (empty
string when unset, matching `if not OPENROUTER_API_KEY`); `aiCall` is the
outcome of the completion POST and JSON parse: `.ok d` when
`json.loads(content)` succeeded (with whatever keys the model produced),
`.error ()` when the request, status check, indexing or parse raised. -/
def ai_analyze (key : String) (aiCall : Except Unit AIDict) (cve : CVEInput) : AIDict :=
  if key = "" then fallbackBundle cve
  else
    match aiCall with
    | .ok d => d
    | .error _ => fallbackBundle cve

/-- `CVEAnalysisResponse` from `fastapi(2).py`, without the two image URLs
(image rendering is the external visualization collaborator). -/
structure CVEAnalysisResponse where
  cve_id : String
  cvss_vector : Option String
  severity : String
  cvss_score : ℚ
  simple_summary : String
  simple_description : String
  affected_products : List String
  affected_assets : List String
  fixes : List String
  epss_score : ℚ
  epss_30d_prediction : ℚ

/-- The `/analyze` handler of `fastapi(2).py`: pydantic validation, then
`ai_analyze`, `epss_live`, `epss_predict`, then assembly.  Each `ai[...]`
subscript raises `KeyError` when the parsed completion output lacks that key
(modelled by the `fieldMissing` error, in the source's argument order);
once all subscripts succeed, the `CVEAnalysisResponse(...)` constructor
pydantic-validates the values and raises `ValidationError` when any has the
wrong type (modelled by the `responseValidation` error). -/
def analyze (key : String) (aiCall : Except Unit AIDict) (fetch : FetchOutcome)
    (raw : CVEInput) : Except AnalyzeError CVEAnalysisResponse :=
  match validateCVEInput raw with
  | .error e => .error e
  | .ok cve =>
    let ai := ai_analyze key aiCall cve
    let epss_now := epss_live fetch
    let epss_30 := epss_predict epss_now
    match ai.simple_summary with
    | none => .error (.fieldMissing "simple_summary")
    | some v1 =>
      match ai.simple_description with
      | none => .error (.fieldMissing "simple_description")
      | some v2 =>
        match ai.affected_products with
        | none => .error (.fieldMissing "affected_products")
        | some v3 =>
          match ai.affected_assets with
          | none => .error (.fieldMissing "affected_assets")
          | some v4 =>
            match ai.fixes with
            | none => .error (.fieldMissing "fixes")
            | some v5 =>
              match v1.asStr, v2.asStr, v3.asStrList, v4.asStrList, v5.asStrList with
              | some ss, some sd, some ap, some aa, some fx =>
                .ok { cve_id := cve.cve_id
                      cvss_vector := cve.cvss_vector
                      severity := cve.severity
                      cvss_score := cve.cvss_score
                      simple_summary := ss
                      simple_description := sd
                      affected_products := ap
                      affected_assets := aa
                      fixes := fx
                      epss_score := epss_now
                      epss_30d_prediction := epss_30 }
              | _, _, _, _, _ => .error .responseValidation

/-- The completion output `\x7b\x7d` (or any parsed JSON object carrying none
of the required keys). -/
def emptyDict : AIDict := ⟨none, none, none, none, none⟩

/-- A completion output carrying all five keys but a wrong-typed value:
`simple_summary` holds a JSON number, which pydantic v2 rejects for a `str`
field. -/
def illTypedDict : AIDict :=
  ⟨some .other, some (.str "x"), some (.list ["a"]), some (.list ["b"]),
   some (.list ["c"])⟩

/-- The end-to-end scenario record of the spec:
`CVE-2023-4863`, CRITICAL, 9.8, libwebp. -/
def sampleInput : CVEInput :=
  { cve_id := "CVE-2023-4863"
    cvss_vector := none
    severity := "CRITICAL"
    cvss_score := 9.8
    summary := "libwebp heap overflow"
    description := "Heap buffer overflow in libwebp in Google Chrome" }

end FastApi2

namespace ApiPy

/-- The import-time credential check of `api.py`: `os.getenv` yields `none`
when the variable is unset, and `if not API_KEY: raise ValueError(...)`
aborts startup. -/
def api_startup (envKey : Option String) : Except String Unit :=
  if envKey.getD "" = "" then
    .error "OPENROUTER_API_KEY not found in .env file."
  else .ok ()

end ApiPy

/-! Rounding bounds for `rhe` and `pyRound5`. -/

lemma rhe_le_add_half (x : ℚ) : (rhe x : ℚ) ≤ x + 1/2 := by
  unfold rhe
  have hf : (⌊x⌋ : ℚ) ≤ x := Int.floor_le x
  split_ifs with h1 h2 h3
  · linarith
  · have := not_lt.mp h1
    push_cast
    linarith
  · linarith
  · have := not_lt.mp h1
    push_cast
    linarith

lemma rhe_nonneg (x : ℚ) (h : 0 ≤ x) : 0 ≤ rhe x := by
  have h0 : (0 : ℤ) ≤ ⌊x⌋ := Int.le_floor.mpr (by exact_mod_cast h)
  unfold rhe
  split_ifs <;> omega

lemma rhe_le_int (x : ℚ) (n : ℤ) (h : x ≤ n) : rhe x ≤ n := by
  have hfl : ⌊x⌋ ≤ n := by
    have := Int.floor_mono h
    simpa using this
  unfold rhe
  split_ifs with h1 h2 h3
  · exact hfl
  · have hq : (⌊x⌋ : ℚ) + 1/2 ≤ x := by linarith [not_lt.mp h1]
    have hlt : (⌊x⌋ : ℚ) < n := by linarith
    have : ⌊x⌋ < n := by exact_mod_cast hlt
    omega
  · exact hfl
  · have hq : (⌊x⌋ : ℚ) + 1/2 ≤ x := by linarith [not_lt.mp h1]
    have hlt : (⌊x⌋ : ℚ) < n := by linarith
    have : ⌊x⌋ < n := by exact_mod_cast hlt
    omega

lemma pyRound5_nonneg (x : ℚ) (h : 0 ≤ x) : 0 ≤ pyRound5 x := by
  unfold pyRound5
  have h1 : (0 : ℤ) ≤ rhe (x * 100000) := rhe_nonneg _ (by positivity)
  have h2 : (0 : ℚ) ≤ (rhe (x * 100000) : ℚ) := by exact_mod_cast h1
  positivity

lemma pyRound5_le_one (x : ℚ) (h : x ≤ 1) : pyRound5 x ≤ 1 := by
  unfold pyRound5
  have h1 : rhe (x * 100000) ≤ (100000 : ℤ) := by
    apply rhe_le_int
    push_cast
    linarith
  rw [div_le_one (by norm_num)]
  exact_mod_cast h1

lemma pyRound5_le_add (x : ℚ) : pyRound5 x ≤ x + 1/200000 := by
  unfold pyRound5
  have h := rhe_le_add_half (x * 100000)
  rw [div_le_iff₀ (by norm_num : (0:ℚ) < 100000)]
  have hexp : (x + 1/200000) * 100000 = x * 100000 + 1/2 := by ring
  linarith

/-- For a nonnegative input and nonnegative growth factor, the
multiply/clamp/round pipeline shared by both banded projections lands
in `[0, 1]`. -/
lemma pyRound5_min_unit (c g : ℚ) (hc : 0 ≤ c) (hg : 0 ≤ g) :
    0 ≤ pyRound5 (min 1 (c * g)) ∧ pyRound5 (min 1 (c * g)) ≤ 1 :=
  ⟨pyRound5_nonneg _ (le_min (by norm_num) (mul_nonneg hc hg)),
   pyRound5_le_one _ (min_le_left _ _)⟩

/-! Helper lemmas about the `fastapi(2).py` aggregator. -/

lemma fallback_products_ne_nil (cve : FastApi2.CVEInput) :
    FastApi2.fallback_products cve ≠ [] := by
  unfold FastApi2.fallback_products
  split_ifs with h
  · simp
  · exact h

lemma ai_analyze_fallback (key : String) (aiCall : Except Unit FastApi2.AIDict)
    (cve : FastApi2.CVEInput) (h : key = "" ∨ aiCall = .error ()) :
    FastApi2.ai_analyze key aiCall cve = FastApi2.fallbackBundle cve := by
  rcases h with h | h
  · simp [FastApi2.ai_analyze, h]
  · subst h
    by_cases hk : key = "" <;> simp [FastApi2.ai_analyze, hk]

lemma analyze_fallback_eq (key : String) (aiCall : Except Unit FastApi2.AIDict)
    (fetch : FetchOutcome) (raw cve : FastApi2.CVEInput)
    (hk : key = "" ∨ aiCall = .error ())
    (hv : FastApi2.validateCVEInput raw = .ok cve) :
    FastApi2.analyze key aiCall fetch raw = .ok
      { cve_id := cve.cve_id
        cvss_vector := cve.cvss_vector
        severity := cve.severity
        cvss_score := cve.cvss_score
        simple_summary := cve.summary
        simple_description := cve.description
        affected_products := FastApi2.fallback_products cve
        affected_assets := FastApi2.fallback_assets
        fixes := FastApi2.fallback_fixes
        epss_score := FastApi2.epss_live fetch
        epss_30d_prediction := FastApi2.epss_predict (FastApi2.epss_live fetch) } := by
  unfold FastApi2.analyze
  rw [hv]
  dsimp only
  rw [ai_analyze_fallback _ _ _ hk]
  rfl

lemma sample_validate :
    FastApi2.validateCVEInput FastApi2.sampleInput = .ok FastApi2.sampleInput := by
  unfold FastApi2.validateCVEInput
  rw [if_pos]
  · rw [show pyUpper FastApi2.sampleInput.severity = "CRITICAL" from by decide]
    rfl
  · simp only [Bool.and_eq_true, decide_eq_true_eq]
    refine ⟨⟨by decide, ?_⟩, ?_⟩ <;> norm_num [FastApi2.sampleInput]

lemma bind_asStr_eq (o : Option FastApi2.JsonVal)
    (h : (o.bind FastApi2.JsonVal.asStr).isSome = true) :
    ∃ s, o = some (.str s) := by
  rcases o with _ | v
  · simp at h
  · rcases v with s | l | _
    · exact ⟨s, rfl⟩
    · simp [FastApi2.JsonVal.asStr] at h
    · simp [FastApi2.JsonVal.asStr] at h

lemma bind_asStrList_eq (o : Option FastApi2.JsonVal)
    (h : (o.bind FastApi2.JsonVal.asStrList).isSome = true) :
    ∃ l, o = some (.list l) := by
  rcases o with _ | v
  · simp at h
  · rcases v with s | l | _
    · simp [FastApi2.JsonVal.asStrList] at h
    · exact ⟨l, rfl⟩
    · simp [FastApi2.JsonVal.asStrList] at h

/-! Claims about the Projection Engine. -/

/-- C1 (counterexample): the claim includes `epss_predict` among the
projections, but `epss_predict` has no clamp: at the in-range input `1.0` it
returns `1.15`, outside `[0, 1]`. -/
theorem C1_counterexample :
    0 ≤ (1 : ℚ) ∧ (1 : ℚ) ≤ 1 ∧ FastApi2.epss_predict 1 = 1.15 ∧
      1 < FastApi2.epss_predict 1 := by
  refine ⟨by norm_num, le_refl 1, ?_, ?_⟩ <;>
    norm_num [FastApi2.epss_predict, pyRound5, rhe]

/-- C1 (amended): for every `current` in `[0, 1]`, the two banded projections
`predict_epss_30d` (from `finallayer3.py` and `fastapi(1).py`) return a value
in `[0, 1]`; the claim fails for `fastapi(2).py`'s unclamped `epss_predict`. -/
theorem C1_amended (c : ℚ) (h0 : 0 ≤ c) (h1 : c ≤ 1) :
    (0 ≤ FinalLayer3.predict_epss_30d c ∧ FinalLayer3.predict_epss_30d c ≤ 1) ∧
    (0 ≤ FastApi1.predict_epss_30d c ∧ FastApi1.predict_epss_30d c ≤ 1) := by
  constructor
  · unfold FinalLayer3.predict_epss_30d
    exact pyRound5_min_unit c _ h0 (by split_ifs <;> norm_num)
  · unfold FastApi1.predict_epss_30d
    exact pyRound5_min_unit c _ h0 (by split_ifs <;> norm_num)

/-- C1 (witness): the amended theorem applied at `current = 1/2`. -/
theorem C1_witness :
    (0 ≤ FinalLayer3.predict_epss_30d (1/2) ∧ FinalLayer3.predict_epss_30d (1/2) ≤ 1) ∧
    (0 ≤ FastApi1.predict_epss_30d (1/2) ∧ FastApi1.predict_epss_30d (1/2) ≤ 1) :=
  C1_amended (1/2) (by norm_num) (by norm_num)

/-- C2: for every `current` in `[0, 0.005)`, the canonical Projection Engine
(`predict_epss_30d` of `finallayer3.py`, the spec's reference banding table)
returns exactly `min(1.0, round(current * 1.30, 5))`. -/
theorem C2_low_band (c : ℚ) (h0 : 0 ≤ c) (h : c < 0.005) :
    FinalLayer3.predict_epss_30d c = min 1 (pyRound5 (c * 1.30)) := by
  have hle : c * (1.30 : ℚ) ≤ 1 := by nlinarith
  have hr : pyRound5 (c * 1.30) ≤ 1 := pyRound5_le_one _ hle
  unfold FinalLayer3.predict_epss_30d
  rw [if_pos h, min_eq_right hle, min_eq_right hr]

/-- C2 (witness): the low band evaluated at `current = 0.004`. -/
theorem C2_witness :
    FinalLayer3.predict_epss_30d 0.004 = min 1 (pyRound5 (0.004 * 1.30)) :=
  C2_low_band 0.004 (by norm_num) (by norm_num)

/-- C3: for every `current` in `[0.10, 1.0]`, the canonical Projection Engine
returns exactly `round(current * 0.97, 5)`, and this top band is a strict
decrease: the projection is below `current`. -/
theorem C3_top_band (c : ℚ) (hlo : 0.10 ≤ c) (hhi : c ≤ 1) :
    FinalLayer3.predict_epss_30d c = pyRound5 (c * 0.97) ∧
      FinalLayer3.predict_epss_30d c < c := by
  have h1 : ¬ c < 0.005 := not_lt.mpr (by linarith)
  have h2 : ¬ c < 0.02 := not_lt.mpr (by linarith)
  have h3 : ¬ c < 0.10 := not_lt.mpr (by linarith)
  have hle : c * (0.97 : ℚ) ≤ 1 := by nlinarith
  have heq : FinalLayer3.predict_epss_30d c = pyRound5 (c * 0.97) := by
    unfold FinalLayer3.predict_epss_30d
    rw [if_neg h1, if_neg h2, if_neg h3, min_eq_right hle]
  refine ⟨heq, ?_⟩
  rw [heq]
  have hb := pyRound5_le_add (c * 0.97)
  nlinarith

/-- C3 (witness): the top band evaluated at `current = 1/2`. -/
theorem C3_witness :
    FinalLayer3.predict_epss_30d (1/2) = pyRound5 ((1/2) * 0.97) ∧
      FinalLayer3.predict_epss_30d (1/2) < 1/2 :=
  C3_top_band (1/2) (by norm_num) (by norm_num)

/-- C10: the canonical banded Projection Engine is not monotone: crossing the
first band boundary, `0.0049 < 0.005` yet
`predict_epss_30d 0.0049 = 0.00637 > 0.00575 = predict_epss_30d 0.005`. -/
theorem C10_nonmonotone :
    ∃ a b : ℚ, 0 ≤ a ∧ a < b ∧ b ≤ 1 ∧
      FinalLayer3.predict_epss_30d b < FinalLayer3.predict_epss_30d a :=
  ⟨0.0049, 0.005, by norm_num, by norm_num, by norm_num,
    by norm_num [FinalLayer3.predict_epss_30d, pyRound5, rhe]⟩

/-! Claims about the Score Oracle Adapter. -/

/-- C4 (counterexample): `fetch_epss` in `finallayer3.py` does not return
`0.0` on an empty data list; it raises `RuntimeError`. -/
theorem C4_counterexample :
    FinalLayer3.fetch_epss (.payload []) = .error "EPSS data not found for this CVE" :=
  rfl

/-- C4 (amended): on every oracle failure (network error, HTTP error status,
malformed payload, empty data list, unreadable score field), `fetch_epss` of
`fastapi(1).py` and `epss_live` of `fastapi(2).py` return `0.0` without
raising; `fetch_epss` of `finallayer3.py` instead propagates an error. -/
theorem C4_amended (r : FetchOutcome) (h : r.isFailureCase = true) :
    FastApi1.fetch_epss r = 0 ∧ FastApi2.epss_live r = 0 ∧
      ∃ msg, FinalLayer3.fetch_epss r = .error msg := by
  rcases r with _ | _ | _ | data
  · exact ⟨rfl, rfl, _, rfl⟩
  · exact ⟨rfl, rfl, _, rfl⟩
  · exact ⟨rfl, rfl, _, rfl⟩
  · rcases data with _ | ⟨hd, tl⟩
    · exact ⟨rfl, rfl, _, rfl⟩
    · rcases hd with _ | q
      · exact ⟨rfl, rfl, _, rfl⟩
      · simp [FetchOutcome.isFailureCase] at h

/-- C4 (witness): the amended theorem applied to the empty data list. -/
theorem C4_witness :
    FastApi1.fetch_epss (.payload []) = 0 ∧ FastApi2.epss_live (.payload []) = 0 ∧
      ∃ msg, FinalLayer3.fetch_epss (.payload []) = .error msg :=
  C4_amended (.payload []) rfl

/-! Claims about the Analysis Aggregator fallback. -/

/-- C5 (counterexample): the fallback of `ai_generate_analysis` in
`fastapi(1).py` returns the constant bundle with EMPTY `affected_products` and
`fixes`, and a fixed summary rather than the input's text. -/
theorem C5_counterexample :
    FastApi1.ai_generate_analysis (.error ()) = some FastApi1.v1_fallback ∧
      FastApi1.v1_fallback.affected_products = [] ∧
      FastApi1.v1_fallback.fixes = [] ∧
      FastApi1.v1_fallback.simple_summary = "AI analysis unavailable" :=
  ⟨rfl, rfl, rfl, rfl⟩

/-- C5 (amended): on the fallback path (no credential, or a failed completion
call), `ai_analyze` of `fastapi(2).py` echoes the input's summary and
description verbatim and returns non-empty `affected_products` and `fixes`,
for every input record; `fastapi(1).py`'s fallback instead returns fixed
strings and empty lists. -/
theorem C5_amended (cve : FastApi2.CVEInput) (key : String)
    (aiCall : Except Unit FastApi2.AIDict) (h : key = "" ∨ aiCall = .error ()) :
    (FastApi2.ai_analyze key aiCall cve).simple_summary = some (.str cve.summary) ∧
    (FastApi2.ai_analyze key aiCall cve).simple_description =
      some (.str cve.description) ∧
    (FastApi2.ai_analyze key aiCall cve).affected_products =
      some (.list (FastApi2.fallback_products cve)) ∧
    FastApi2.fallback_products cve ≠ [] ∧
    (FastApi2.ai_analyze key aiCall cve).fixes =
      some (.list FastApi2.fallback_fixes) ∧
    FastApi2.fallback_fixes ≠ [] := by
  rw [ai_analyze_fallback _ _ _ h]
  exact ⟨rfl, rfl, rfl, fallback_products_ne_nil _,
    rfl, by simp [FastApi2.fallback_fixes]⟩

/-- C5 (witness): the amended theorem applied to the scenario record with no
credential configured. -/
theorem C5_witness :
    (FastApi2.ai_analyze "" (.error ()) FastApi2.sampleInput).simple_summary =
      some (.str FastApi2.sampleInput.summary) ∧
    (FastApi2.ai_analyze "" (.error ()) FastApi2.sampleInput).simple_description =
      some (.str FastApi2.sampleInput.description) ∧
    (FastApi2.ai_analyze "" (.error ()) FastApi2.sampleInput).affected_products =
      some (.list (FastApi2.fallback_products FastApi2.sampleInput)) ∧
    FastApi2.fallback_products FastApi2.sampleInput ≠ [] ∧
    (FastApi2.ai_analyze "" (.error ()) FastApi2.sampleInput).fixes =
      some (.list FastApi2.fallback_fixes) ∧
    FastApi2.fallback_fixes ≠ [] :=
  C5_amended FastApi2.sampleInput "" (.error ()) (Or.inl rfl)

/-! Claims about input validation. -/

/-- C6 (counterexample): neither variant validates all three fields.
`fastapi(1).py` accepts a record with severity `"EXTREME"` (it never checks
severity), and `fastapi(2).py` accepts the identifier `"not-a-cve"` (it never
checks the pattern). -/
theorem C6_counterexample :
    FastApi1.CVEInput.valid
      { cve_id := "CVE-2023-4863", cvss_vector := "AV:N", severity := "EXTREME",
        cvss_score := 9.8, affected_assets := [] } = true ∧
    FastApi2.validateCVEInput
      { cve_id := "not-a-cve", cvss_vector := none, severity := "CRITICAL",
        cvss_score := 9.8, summary := "s", description := "d" } =
      .ok { cve_id := "not-a-cve", cvss_vector := none, severity := "CRITICAL",
            cvss_score := 9.8, summary := "s", description := "d" } := by
  constructor
  · simp only [FastApi1.CVEInput.valid, Bool.and_eq_true, decide_eq_true_eq]
    refine ⟨⟨by decide, by norm_num⟩, by norm_num⟩
  · unfold FastApi2.validateCVEInput
    rw [if_pos]
    · rw [show pyUpper "CRITICAL" = "CRITICAL" from by decide]
    · simp only [Bool.and_eq_true, decide_eq_true_eq]
      refine ⟨⟨by decide, by norm_num⟩, by norm_num⟩

/-- C6 (amended): `fastapi(1).py` rejects a record whenever the identifier
fails the CVE pattern or the score leaves `[0, 10]` (but checks no severity);
`fastapi(2).py` rejects a record whenever the uppercased severity is outside
the five-value set or the score leaves `[0, 10]` (but checks no identifier
pattern). -/
theorem C6_amended (c1 : FastApi1.CVEInput) (c2 : FastApi2.CVEInput)
    (h1 : validCVEId c1.cve_id = false ∨ ¬ (0 ≤ c1.cvss_score ∧ c1.cvss_score ≤ 10))
    (h2 : FastApi2.severityValid (pyUpper c2.severity) = false ∨
      ¬ (0 ≤ c2.cvss_score ∧ c2.cvss_score ≤ 10)) :
    FastApi1.CVEInput.valid c1 = false ∧
      FastApi2.validateCVEInput c2 = .error .validation := by
  constructor
  · simp only [FastApi1.CVEInput.valid, Bool.and_eq_false_iff,
      decide_eq_false_iff_not]
    tauto
  · unfold FastApi2.validateCVEInput
    rw [if_neg]
    intro hcond
    simp only [Bool.and_eq_true, decide_eq_true_eq] at hcond
    obtain ⟨⟨hs, hge⟩, hle⟩ := hcond
    rcases h2 with h | h
    · rw [h] at hs
      simp at hs
    · exact h ⟨hge, hle⟩

/-- C6 (witness): the amended theorem applied to the identifier `"not-a-cve"`
(rejected by `fastapi(1).py`) and the severity `"EXTREME"` (rejected by
`fastapi(2).py`). -/
theorem C6_witness :
    FastApi1.CVEInput.valid
      { cve_id := "not-a-cve", cvss_vector := "AV:N", severity := "CRITICAL",
        cvss_score := 9.8, affected_assets := [] } = false ∧
    FastApi2.validateCVEInput
      { cve_id := "CVE-2023-4863", cvss_vector := none, severity := "EXTREME",
        cvss_score := 9.8, summary := "s", description := "d" } =
      .error .validation :=
  C6_amended _ _ (Or.inl (by decide)) (Or.inl (by decide))

/-! Claim about the credential configuration. -/

/-- C7 (code bug): with no credential in the environment, `api.py` raises
`ValueError` at import time, while `fastapi(2).py`'s aggregator serves the
analysis request through the fallback path; the spec explicitly calls the
startup failure incorrect, so the claim is right and `api.py` is the bug. -/
theorem C7_startup :
    ApiPy.api_startup none = .error "OPENROUTER_API_KEY not found in .env file." ∧
    ∃ resp, FastApi2.analyze "" (.error ()) (.payload []) FastApi2.sampleInput =
      .ok resp :=
  ⟨rfl, _, analyze_fallback_eq _ _ _ _ _ (Or.inl rfl) sample_validate⟩

/-! End-to-end scenario claim. -/

/-- C8: with the completion collaborator unavailable and the score oracle
returning `0.02`, the `/analyze` aggregator of `fastapi(2).py` reports a
30-day projection of exactly `0.023 = round(0.02 * 1.15, 5)` and non-empty
fallback product and fix lists. -/
theorem C8_end_to_end :
    ∃ resp,
      FastApi2.analyze "" (.error ()) (.payload [some 0.02]) FastApi2.sampleInput =
        .ok resp ∧
      resp.epss_score = 0.02 ∧
      resp.epss_30d_prediction = 0.023 ∧
      resp.affected_products ≠ [] ∧ resp.fixes ≠ [] := by
  refine ⟨_, analyze_fallback_eq _ _ _ _ _ (Or.inl rfl) sample_validate,
    rfl, ?_, ?_, ?_⟩
  · show FastApi2.epss_predict (FastApi2.epss_live (.payload [some 0.02])) = 0.023
    norm_num [FastApi2.epss_predict, FastApi2.epss_live, pyRound5, rhe]
  · exact fallback_products_ne_nil FastApi2.sampleInput
  · show FastApi2.fallback_fixes ≠ []
    simp [FastApi2.fallback_fixes]

/-! Claim about all-or-nothing assembly. -/

/-- C9 (counterexample): with a credential configured, a completion call that
succeeds but returns JSON with none of the required keys makes `analyze` of
`fastapi(2).py` fail after validation with an uncaught `KeyError`; and one
that returns all five keys but a wrong-typed `simple_summary` (for example a
JSON number) makes it fail after validation with an uncaught pydantic
`ValidationError` from `CVEAnalysisResponse(...)`.  Post-validation failures
are possible either way. -/
theorem C9_counterexample :
    FastApi2.analyze "configured-key" (.ok FastApi2.emptyDict)
        (.payload [some 0.02]) FastApi2.sampleInput =
      .error (.fieldMissing "simple_summary") ∧
    FastApi2.analyze "configured-key" (.ok FastApi2.illTypedDict)
        (.payload [some 0.02]) FastApi2.sampleInput =
      .error .responseValidation := by
  constructor
  · unfold FastApi2.analyze
    rw [sample_validate]
    dsimp only
    rw [show FastApi2.ai_analyze "configured-key" (.ok FastApi2.emptyDict)
          FastApi2.sampleInput = FastApi2.emptyDict by
      unfold FastApi2.ai_analyze
      rw [if_neg (by decide)]]
    rfl
  · unfold FastApi2.analyze
    rw [sample_validate]
    dsimp only
    rw [show FastApi2.ai_analyze "configured-key" (.ok FastApi2.illTypedDict)
          FastApi2.sampleInput = FastApi2.illTypedDict by
      unfold FastApi2.ai_analyze
      rw [if_neg (by decide)]]
    rfl

/-- C9 (amended): whenever `ai_analyze` takes the fallback path (no credential
or a failed completion call) or the completion output parses to an object
carrying all five required keys with values of the required types (strings
for the summaries, string lists for products, assets and fixes), `analyze`
either rejects the record at validation or returns a fully assembled result;
but a parseable completion output missing a key fails after validation with
`KeyError`, and one carrying a wrong-typed value fails after validation with
pydantic `ValidationError` (see the counterexample). -/
theorem C9_amended (key : String) (aiCall : Except Unit FastApi2.AIDict)
    (fetch : FetchOutcome) (raw : FastApi2.CVEInput)
    (h : key = "" ∨ aiCall = .error () ∨
      ∃ d, aiCall = .ok d ∧ d.wellFormed = true) :
    FastApi2.analyze key aiCall fetch raw = .error .validation ∨
      ∃ resp, FastApi2.analyze key aiCall fetch raw = .ok resp := by
  cases hv : FastApi2.validateCVEInput raw with
  | error e =>
    left
    have he : e = .validation := by
      unfold FastApi2.validateCVEInput at hv
      split at hv
      · cases hv
      · cases hv
        rfl
    subst he
    unfold FastApi2.analyze
    rw [hv]
  | ok cve =>
    right
    rcases h with hk | hc | ⟨d, hd, hcomp⟩
    · exact ⟨_, analyze_fallback_eq _ _ _ _ _ (Or.inl hk) hv⟩
    · exact ⟨_, analyze_fallback_eq _ _ _ _ _ (Or.inr hc) hv⟩
    · subst hd
      by_cases hk : key = ""
      · exact ⟨_, analyze_fallback_eq _ _ _ _ _ (Or.inl hk) hv⟩
      · have hai : FastApi2.ai_analyze key (.ok d) cve = d := by
          unfold FastApi2.ai_analyze
          rw [if_neg hk]
        simp only [FastApi2.AIDict.wellFormed, Bool.and_eq_true] at hcomp
        obtain ⟨⟨⟨⟨h1, h2⟩, h3⟩, h4⟩, h5⟩ := hcomp
        obtain ⟨ss, e1⟩ := bind_asStr_eq _ h1
        obtain ⟨sd, e2⟩ := bind_asStr_eq _ h2
        obtain ⟨ap, e3⟩ := bind_asStrList_eq _ h3
        obtain ⟨aa, e4⟩ := bind_asStrList_eq _ h4
        obtain ⟨fx, e5⟩ := bind_asStrList_eq _ h5
        unfold FastApi2.analyze
        rw [hv]
        dsimp only
        rw [hai, e1, e2, e3, e4, e5]
        exact ⟨_, rfl⟩

/-- C9 (witness): the amended theorem on the fallback path for the scenario
record. -/
theorem C9_witness :
    FastApi2.analyze "" (.error ()) (.payload []) FastApi2.sampleInput =
        .error .validation ∨
      ∃ resp, FastApi2.analyze "" (.error ()) (.payload []) FastApi2.sampleInput =
        .ok resp :=
  C9_amended "" (.error ()) (.payload []) FastApi2.sampleInput (Or.inl rfl)
